import Mathlib

set_option maxHeartbeats 1000000
set_option maxRecDepth 8000

namespace Momostr

/-! # Shallow embedding of the momostr bridge inbox handler

Translated from src/src/server/inbox.rs and the startup/configuration fragment of
src/src/main.rs. External collaborators (nostr_lib signing and bech32 codecs, the
relay pool, HTTP fetching, the html-to-markdown crate and the regex engine) are
out of scope of the repository and are modeled as oracle functions carried in an
Env record; all control flow and state manipulation is translated from the source.
Nostr event ids, public keys and secret keys are modeled as Nat (they are opaque
values produced by the external nostr library). -/

/-- nostr_lib::nips::nip48::Protocol, as used for proxy tags. -/
inductive Proto where
  | activityPub
  | web
  deriving DecidableEq

/-- nostr_lib::Marker: reply markers carried on e-tags. -/
inductive Marker where
  | root
  | reply
  deriving DecidableEq

/-- Nostr tags, restricted to the constructors the inbox handler produces or
inspects. Generic/custom tags (imeta, q) share one constructor. -/
inductive Tag where
  | event (eventId : Nat) (relayUrl : Option String) (marker : Option Marker)
  | publicKey (pk : Nat)
  | emoji (shortcode : String) (url : String)
  | hashtag (name : String)
  | contentWarning (reason : Option String)
  | proxy (id : String) (protocol : Proto)
  | labelNamespace (ns : String)
  | label (values : List String)
  | custom (kind : String) (values : List String)
  deriving DecidableEq

/-- A signed nostr event (nostr_lib::Event); the id is produced by the external
signing library, modeled through the Env.mkId oracle. -/
structure Event where
  id : Nat
  pubkey : Nat
  createdAt : Nat
  kind : Nat
  content : String
  tags : List Tag
  deriving DecidableEq

def kindMetadata : Nat := 0
def kindTextNote : Nat := 1
def kindContactList : Nat := 3
def kindEventDeletion : Nat := 5
def kindRepost : Nat := 6
def kindReaction : Nat := 7

/-- CONTACT_LIST_LEN_LIMIT (main.rs line 71). -/
def contactListLenLimit : Nat := 500

/-- Tags attached to an ActivityPub Note (activity::NoteTagForDe). -/
inductive NoteTag where
  | mention (href : String) (name : String)
  | emoji (name : String) (iconUrl : String)
  | hashtag (name : String)
  | other
  deriving DecidableEq

/-- The source field of a Note (markdown variant). -/
structure Source where
  content : String
  mediaType : String
  deriving DecidableEq

structure Attachment where
  url : String
  mediaType : Option String
  deriving DecidableEq

/-- The url field of a Note, which may declare a nostr origin. -/
structure NoteUrl where
  url : Option String
  proxiedFrom : Option String
  deriving DecidableEq

/-- An inbound ActivityPub Note (activity::NoteForDe); published is the Unix
timestamp of the published field. -/
structure Note where
  id : String
  attributedTo : String
  content : String
  source : Option Source
  summary : Option String
  sensitive : Option Bool
  inReplyTo : Option String
  quoteUrl : Option String
  misskeyQuote : Option String
  attachment : List Attachment
  tag : List NoteTag
  published : Nat
  /-- The to field (to is a Lean keyword). -/
  toAddr : List String
  cc : List String
  url : NoteUrl
  deriving DecidableEq

/-- A resolved native ActivityPub actor (the fields the inbox handler uses). -/
structure Actor where
  id : String
  npub : Nat
  nsec : Nat
  inbox : Option String
  deriving DecidableEq

/-- activity::ActorOrProxied. -/
inductive ActorOrProxied where
  | actor (a : Actor)
  | proxied (npub : String)
  deriving DecidableEq

/-- One match of MENTION_REGEX: byte offsets of the whole match plus the named
capture groups (the regex engine is an external crate, modeled as an oracle). -/
structure MentionMatch where
  start : Nat
  stop : Nat
  username : String
  domain : Option String
  url : String

/-- Oracle record for all external collaborators plus the process configuration. -/
structure Env where
  /-- NOTE_ID_PREFIX. -/
  notePre : String
  /-- USER_ID_PREFIX. -/
  userPre : String
  /-- DOMAIN. -/
  domain : String
  /-- REVERSE_DNS. -/
  revDns : String
  /-- Timestamp::now() at this processing step. -/
  now : Nat
  /-- state.relay_url lookup by relay id. -/
  relayUrl : Nat → String
  /-- state.get_note: fetch a nostr event (with relay id) from cache/relays. -/
  getNote : Nat → Option (Event × Nat)
  /-- state.get_nostr_event_with_timeout with an ids filter. -/
  getEventById : Nat → Option (Event × Nat)
  /-- state.get_nostr_event_with_timeout with the reaction filter of the
  Undo(Like) handler: author npub, reacted event id, proxy label. -/
  findReaction : Nat → Nat → String → Option Event
  /-- get_activity_json_with_retry for a Note url. -/
  fetchNote : String → Option Note
  /-- state.get_actor_data; none models a resolution error. -/
  getActor : String → Option ActorOrProxied
  /-- nostr EventId::from_bech32. -/
  decodeNote : String → Option Nat
  /-- nostr PublicKey::from_bech32. -/
  decodePub : String → Option Nat
  /-- nostr EventId::to_bech32. -/
  encodeNote : Nat → String
  /-- nostr PublicKey::to_bech32. -/
  encodePub : Nat → String
  /-- Keys::new(nsec).public_key(). -/
  pubOfSec : Nat → Nat
  /-- Event id assignment performed by EventBuilder::to_event (a hash of pubkey,
  created_at, kind, content and tags). -/
  mkId : Nat → Nat → Nat → String → List Tag → Nat
  /-- html_to_text (main.rs line 212, external html-to-md crate). -/
  htmlToText : String → String
  /-- HASHTAG_LINK_REGEX.replace_all(content, tag-dollar-pattern). -/
  hashtagReplace : String → String
  /-- HEAD_MENTIONS_REGEX.find: when it matches, the content after the match end. -/
  stripHeadMentions : String → Option String
  /-- MENTION_REGEX.captures_iter. -/
  mentionMatches : String → List MentionMatch

/-- The embedded key-value store (db.rs, not under src/): id bindings from
ActivityPub id strings to nostr event ids, plus the opt-out set. -/
structure Db where
  apToEvent : List (String × Nat)
  stoppedAp : List String
  deriving DecidableEq

/-- Mutable process state the inbox handler touches: the binding store, the
forward and reverse follow maps, and the list of events published to relays
(nostr_send calls, in order). -/
structure St where
  db : Db
  followersOf : List (Nat × List String)
  followingBy : List (String × List Nat)
  published : List Event
  deriving DecidableEq

/-! ## Association-list models of the hash maps and hash sets -/

/-- HashMap lookup. -/
def lookupL {α β : Type} [DecidableEq α] : List (α × β) → α → Option β
  | [], _ => none
  | (k', v) :: t, k => if k' = k then some v else lookupL t k

/-- HashMap insert-or-replace (the entry API's occupied/vacant cases). -/
def setEntry {α β : Type} [DecidableEq α] (m : List (α × β)) (k : α) (v : β) :
    List (α × β) :=
  match m with
  | [] => [(k, v)]
  | (k', v') :: t => if k' = k then (k, v) :: t else (k', v') :: setEntry t k v

/-- HashMap entry removal. -/
def removeEntry {α β : Type} [DecidableEq α] (m : List (α × β)) (k : α) :
    List (α × β) :=
  m.filter (fun p => decide (p.1 ≠ k))

/-- HashSet insert. -/
def insertS {α : Type} [DecidableEq α] (s : List α) (x : α) : List α :=
  if x ∈ s then s else s ++ [x]

/-- HashSet remove. -/
def eraseS {α : Type} [DecidableEq α] (s : List α) (x : α) : List α :=
  s.filter (fun y => decide (y ≠ x))

/-- FxHashSet of tags: insertion-ordered, deduplicating. -/
def insertTag (tags : List Tag) (t : Tag) : List Tag :=
  if t ∈ tags then tags else tags ++ [t]

/-! ## Small string helpers (models of the Rust std string operations).
They are written over the character list of the string so that they evaluate
inside the kernel; positions count characters where Rust counts bytes, which
coincides on the ASCII data of all concrete scenarios below. -/

/-- str::strip_prefix. -/
def stripPre (s pre : String) : Option String :=
  if pre.data.isPrefixOf s.data then some (String.mk (s.data.drop pre.data.length))
  else none

/-- str::get(n..): the suffix from position n when n is in range. This models the
slicing in get_note_from_this_server, which does NOT compare the prefix itself. -/
def strSuffixFrom (s : String) (n : Nat) : Option String :=
  if n ≤ s.data.length then some (String.mk (s.data.drop n)) else none

/-- str::trim_matches(colon): strip all leading and trailing colons. -/
def trimColons (s : String) : String :=
  String.mk (((s.data.dropWhile (fun c => c = ':')).reverse.dropWhile
    (fun c => c = ':')).reverse)

/-- The character list after the first scheme separator, if any. -/
def afterSchemeSep : List Char → Option (List Char)
  | ':' :: '/' :: '/' :: rest => some rest
  | _ :: t => afterSchemeSep t
  | [] => none

/-- Model of uri::Uri::from_str(_).host(): the authority component between the
scheme separator and the next delimiter. Strings without a scheme separator or
with an empty authority yield none (http's Uri parses those as host-less or
rejects them; InternalApId::get treats both the same way). -/
def parseHost (s : String) : Option String :=
  match afterSchemeSep s.data with
  | some rest =>
    let authority := rest.takeWhile
      (fun c => !(c = '/' || c = '?' || c = '#' || c = ':'))
    if authority.isEmpty then none else some (String.mk authority)
  | none => none

/-- Offset slice content[i..j] (Rust ranged indexing). -/
def strExtract (s : String) (i j : Nat) : String :=
  String.mk ((s.data.take j).drop i)

/-- Offset slice content[i..]. -/
def strFromByte (s : String) (i : Nat) : String :=
  String.mk (s.data.drop i)

/-- str::ends_with. -/
def strEndsWith (s suffix : String) : Bool :=
  suffix.data.isSuffixOf s.data

/-- starts_with(char::is_ascii_alphanumeric) on the first char. -/
def firstCharAlnum (s : String) : Bool :=
  match s.data with
  | [] => false
  | c :: _ => c.isAlphanum

/-- A decimal-digit parse of a string (kernel-evaluable stand-in for
str::parse in the concrete chain fixtures). -/
def strToNatQ (s : String) : Option Nat :=
  match s.data with
  | [] => none
  | l =>
    if l.all (fun c => c.isDigit)
    then some (l.foldl (fun acc c => acc * 10 + (c.toNat - 48)) 0)
    else none

/-- Boolean success test for Except. -/
def exOk {ε α : Type} : Except ε α → Bool
  | .ok _ => true
  | .error _ => false

instance {ε α : Type} [DecidableEq ε] [DecidableEq α] : DecidableEq (Except ε α) :=
  fun x y =>
    match x, y with
    | .ok a, .ok b =>
      if h : a = b then isTrue (by rw [h])
      else isFalse (fun hc => h (by cases hc; rfl))
    | .error a, .error b =>
      if h : a = b then isTrue (by rw [h])
      else isFalse (fun hc => h (by cases hc; rfl))
    | .ok _, .error _ => isFalse (fun hc => Except.noConfusion hc)
    | .error _, .ok _ => isFalse (fun hc => Except.noConfusion hc)

/-! ## Error types -/

/-- The handler-level error type (error.rs is outside src/; the inbox paths the
claims touch only ever produce BadRequest). -/
inductive HErr where
  | badRequest (msg : Option String)
  deriving DecidableEq

/-- NostrConversionError (inbox.rs lines 569-580), plus the outOfFuel marker that
is an artifact of the fuel-indexed embedding of the recursion. -/
inductive ConvErr where
  | isPrivate
  | optOutedAccount
  | isProxied
  | cyclicRefernce
  | couldNotGetEventFromNostr
  | couldNotGetObjectFromAp
  | invalidEventId
  | invalidActorId
  | tooLongThread
  | outOfFuel
  deriving DecidableEq

/-! ## InternalApId -/

/-- The validated internal ActivityPub id (inbox.rs lines 398-431). -/
structure InternalApId where
  raw : String
  deriving DecidableEq

/-- InternalApId::get (inbox.rs lines 410-426): accept ap_id exactly when its
host equals the authoring actor's host. -/
def InternalApId.get (apId actorId : String) : Except HErr InternalApId :=
  match parseHost actorId with
  | none => .error (.badRequest (some ("actor id is not a url")))
  | some host =>
    if parseHost apId = some host then .ok ⟨apId⟩
    else .error (.badRequest (some (("activity id is " ++ apId) ++
      ((" but the author has a different host name ") ++ host))))

/-- db.get_event_id_from_ap_id. -/
def dbGetEventId (db : Db) (apId : InternalApId) : Option Nat :=
  lookupL db.apToEvent apId.raw

/-- db.is_stopped_ap. -/
def dbStopped (db : Db) (a : String) : Bool :=
  decide (a ∈ db.stoppedAp)

/-- EventBuilder::new(kind, content, tags)[.custom_created_at(t)].to_event(keys)
(signing is external; the id comes from the Env.mkId oracle). -/
def buildEvent (env : Env) (kind : Nat) (content : String) (tags : List Tag)
    (createdAt : Nat) (nsec : Nat) : Event :=
  let pk := env.pubOfSec nsec
  { id := env.mkId pk createdAt kind content tags, pubkey := pk,
    createdAt := createdAt, kind := kind, content := content, tags := tags }

/-- event_tag (inbox.rs lines 449-461): append the proxy and label tags. -/
def eventTag (env : Env) (id : String) (tags : List Tag) : List Tag :=
  tags ++ [Tag.proxy id Proto.activityPub,
           Tag.labelNamespace env.revDns,
           Tag.label [env.revDns ++ ((".activitypub:") ++ id), env.revDns]]

/-- send_event (inbox.rs lines 433-436): persist the id binding, then publish. -/
def sendEvent (ev : Event) (apId : InternalApId) (st : St) : St :=
  { st with db := { st.db with apToEvent := st.db.apToEvent ++ [(apId.raw, ev.id)] },
            published := st.published ++ [ev] }

/-- get_note_from_this_server (inbox.rs lines 438-442). The source slices the url
with url.get(NOTE_ID_PREFIX.len()..); it never verifies that the prefix itself
matches NOTE_ID_PREFIX. -/
def getNoteFromThisServer (env : Env) (url : String) : Option Event :=
  (strSuffixFrom url env.notePre.length).bind (fun tail =>
    (env.decodeNote tail).bind (fun eid => (env.getNote eid).map (fun p => p.1)))

/-- get_npub_from_actor_id (inbox.rs lines 444-447): this one does use
strip_prefix. -/
def getNpubFromActorId (env : Env) (id : String) : Option Nat :=
  (stripPre id env.userPre).bind env.decodePub

/-- get_npub_of_actor (inbox.rs lines 539-550), with errors collapsed to none
(the caller only logs them). -/
def npubOfActor (env : Env) (id : String) : Option Nat :=
  match env.getActor id with
  | some (.proxied s) => env.decodePub s
  | some (.actor a) => some a.npub
  | none => none

/-- The three Public addressing designators (inbox.rs lines 330-337, 589-596). -/
def publicDesignators : List String :=
  ["https://www.w3.org/ns/activitystreams#Public", "Public", "as:Public"]

/-- is_private computation: no Public designator occurs in to or cc. -/
def isPrivateNote (toAddr cc : List String) : Bool :=
  !(toAddr ++ cc).any (fun a => decide (a ∈ publicDesignators))

/-! ## Note translation (get_event_from_note, inbox.rs lines 582-814) -/

/-- The content-warning tags derived from summary/sensitive (lines 598-604). -/
def cwTags (note : Note) : List Tag :=
  match note.summary with
  | some r => if r = "" then [] else [Tag.contentWarning (some r)]
  | none => if note.sensitive.getD false then [Tag.contentWarning none] else []

/-- Tag contributions of the resolved parent event of a reply
(inbox.rs lines 608-646): copy the parent's p tags, p-tag the parent author, and
add root/reply e-tags following the root marker found in the parent. -/
def tagsWithParent (tags0 : List Tag) (pe : Event) : List Tag :=
  let root := pe.tags.foldl (fun acc t =>
    match t with
    | Tag.event eid _ (some Marker.root) => some eid
    | _ => acc) none
  let tags := pe.tags.foldl (fun acc t =>
    match t with
    | Tag.publicKey pk => insertTag acc (Tag.publicKey pk)
    | _ => acc) tags0
  let tags := insertTag tags (Tag.publicKey pe.pubkey)
  match root with
  | some rid =>
    insertTag (insertTag tags (Tag.event rid none (some Marker.root)))
      (Tag.event pe.id none (some Marker.reply))
  | none => insertTag tags (Tag.event pe.id none (some Marker.root))

/-- Tags contributed by the note's Mention/Emoji/Hashtag tags (lines 648-670). -/
def noteTagTags (env : Env) (tags : List Tag) (nts : List NoteTag) : List Tag :=
  nts.foldl (fun acc t =>
    match t with
    | NoteTag.mention href _ =>
      match npubOfActor env href with
      | some npub => insertTag acc (Tag.publicKey npub)
      | none => acc
    | NoteTag.emoji nm icon => insertTag acc (Tag.emoji (trimColons nm) icon)
    | NoteTag.hashtag nm =>
      insertTag acc (Tag.hashtag ((stripPre nm ("#")).getD nm))
    | NoteTag.other => acc) tags

/-- The MENTION_REGEX rewriting loop (inbox.rs lines 688-728): each match whose
target resolves to a pubkey is replaced by a nostr: uri, with a separating space
when the preceding character is alphanumeric. -/
def rewriteMentions (env : Env) (content : String) : String :=
  let ms := env.mentionMatches content
  if ms.isEmpty then content
  else
    let p := ms.foldl (fun (p : Nat × String) m =>
      let npub :=
        if m.domain = some env.domain then env.decodePub m.username
        else
          match env.getActor m.url.trimRight with
          | some (.proxied s) => env.decodePub s
          | some (.actor a) => some a.npub
          | none => none
      match npub with
      | none => p
      | some npub =>
        let seg := strExtract content p.1 m.start
        let c := if decide (p.1 ≠ 0) && firstCharAlnum seg then p.2 ++ (" ")
                 else p.2
        (m.stop, c ++ seg ++ ("nostr:") ++ env.encodePub npub)) ((0 : Nat), "")
    p.2 ++ strFromByte content p.1

/-- The content pipeline before attachments (lines 671-687): misskey markdown
source taken verbatim, otherwise html-to-text plus hashtag-link collapsing; head
mentions stripped for replies. -/
def baseContent (env : Env) (note : Note) : String :=
  let content0 :=
    match note.source with
    | some src =>
      if src.mediaType = "text/x.misskeymarkdown" then src.content
      else env.hashtagReplace (env.htmlToText note.content)
    | none => env.hashtagReplace (env.htmlToText note.content)
  let content1 :=
    if note.inReplyTo.isSome then
      match env.stripHeadMentions content0 with
      | some rest => rest
      | none => content0
    else content0
  rewriteMentions env content1

/-- The attachment block (lines 729-746): append each attachment url on its own
line and collect imeta tags. -/
def withAttachments (note : Note) (content : String) (tags : List Tag) :
    String × List Tag :=
  if note.attachment.isEmpty then (content, tags)
  else
    let c := if !strEndsWith content ("\n") && !(content = "") then content ++ ("\n")
             else content
    note.attachment.foldl (fun (p : String × List Tag) a =>
      (p.1 ++ a.url ++ ("\n"),
       insertTag p.2 (Tag.custom ("imeta")
         ([("url ") ++ a.url] ++ (a.mediaType.map (fun m => ("m ") ++ m)).toList))))
      (c, tags)

/-- The content/tag pair of a note before quote handling: note tags, content
pipeline, attachments. -/
def contentAndTags (env : Env) (note : Note) (tags1 : List Tag) :
    String × List Tag :=
  withAttachments note (baseContent env note) (noteTagTags env tags1 note.tag)

/-- The quote block on success (inbox.rs lines 747-767): q and p tags plus the
nostr: uri of the quoted event appended to the content. -/
def quotedVariant (env : Env) (p : String × List Tag) (e : Event) :
    String × List Tag :=
  let c := if !strEndsWith p.1 ("\n") && !(p.1 = "") then p.1 ++ ("\n") else p.1
  (c ++ ("nostr:") ++ env.encodeNote e.id ++ ("\n"),
   insertTag (insertTag p.2 (Tag.custom ("q") [toString e.id]))
     (Tag.publicKey e.pubkey))

/-- The tail of note translation (inbox.rs lines 772-813): web proxy tag, privacy
check, opt-out check, event construction, id binding and publication. -/
def finishNote (env : Env) (note : Note) (actor : Actor) (tags : List Tag)
    (content : String) (st : St) : Except ConvErr Event × St :=
  let tags :=
    match note.url.url with
    | some u => insertTag tags (Tag.proxy u Proto.web)
    | none => tags
  if isPrivateNote note.toAddr note.cc then (.error .isPrivate, st)
  else if dbStopped st.db actor.id then (.error .optOutedAccount, st)
  else
    let ev := buildEvent env kindTextNote content (eventTag env note.id tags)
      note.published actor.nsec
    match InternalApId.get note.id actor.id with
    | .error _ => (.error .invalidActorId, st)
    | .ok apId => (.ok ev, sendEvent ev apId st)

/-- Adapter pairing a translated note event with the MAIN_RELAY id 0 (the Rust
code wraps the result of get_event_from_note in EventWithRelayId there). -/
def liftEv (p : Except ConvErr Event × St) : Except ConvErr (Event × Nat) × St :=
  match p with
  | (.ok ev, st) => (.ok (ev, 0), st)
  | (.error e, st) => (.error e, st)

/-- The call forms of the mutual recursion between get_event_from_object_id and
get_event_from_note; afterParent is the part of get_event_from_note that follows
reply resolution (its tags argument already holds the parent contributions). -/
inductive Call where
  | objId (url : String) (visited : List String)
  | noteConv (note : Note) (actor : Actor) (visited : List String)
  | afterParent (note : Note) (actor : Actor) (visited : List String)
      (tags : List Tag)

/-- Fuel-indexed interpreter for get_event_from_object_id (inbox.rs lines
475-537) and get_event_from_note (lines 582-814). The Rust recursion is bounded
by the visited list; the Nat fuel makes the embedding structurally recursive, and
a sufficient-fuel theorem below shows the outOfFuel marker is never reached. -/
def interp (env : Env) : Nat → Call → St → Except ConvErr (Event × Nat) × St
  | 0, _, st => (.error .outOfFuel, st)
  | fuel + 1, .objId url visited, st =>
    match stripPre url env.notePre with
    | some tail =>
      match env.decodeNote tail with
      | none => (.error .invalidEventId, st)
      | some eid =>
        match env.getNote eid with
        | some ev => (.ok ev, st)
        | none => (.error .couldNotGetEventFromNostr, st)
    | none =>
      if url ∈ visited then (.error .cyclicRefernce, st)
      else if visited.length > 100 then (.error .tooLongThread, st)
      else
        match (dbGetEventId st.db ⟨url⟩).bind env.getEventById with
        | some ev => (.ok ev, st)
        | none =>
          match env.fetchNote url with
          | none => (.error .couldNotGetObjectFromAp, st)
          | some note =>
            match note.url.proxiedFrom with
            | some pf =>
              match env.decodeNote pf with
              | none => (.error .invalidEventId, st)
              | some eid =>
                match env.getNote eid with
                | some ev => (.ok ev, st)
                | none => (.error .couldNotGetEventFromNostr, st)
            | none =>
              match env.getActor note.attributedTo with
              | none => (.error .couldNotGetObjectFromAp, st)
              | some (.proxied _) => (.error .isProxied, st)
              | some (.actor actor) =>
                interp env fuel (.noteConv note actor (visited ++ [url])) st
  | fuel + 1, .noteConv note actor visited, st =>
    match note.inReplyTo with
    | some r =>
      match interp env fuel (.objId r visited) st with
      | (.error e, st') => (.error e, st')
      | (.ok pe, st') =>
        interp env fuel
          (.afterParent note actor visited (tagsWithParent (cwTags note) pe.1)) st'
    | none => interp env fuel (.afterParent note actor visited (cwTags note)) st
  | fuel + 1, .afterParent note actor visited tags1, st =>
    match note.quoteUrl.or note.misskeyQuote with
    | some qu =>
      match interp env fuel (.objId qu visited) st with
      | (.ok e, st') =>
        liftEv (finishNote env note actor
          (quotedVariant env (contentAndTags env note tags1) e.1).2
          (quotedVariant env (contentAndTags env note tags1) e.1).1 st')
      | (.error _, st') =>
        liftEv (finishNote env note actor (contentAndTags env note tags1).2
          (contentAndTags env note tags1).1 st')
    | none =>
      liftEv (finishNote env note actor (contentAndTags env note tags1).2
        (contentAndTags env note tags1).1 st)

/-- get_event_from_object_id (inbox.rs lines 475-537). -/
def getEventFromObjectId (env : Env) (fuel : Nat) (url : String)
    (visited : List String) (st : St) : Except ConvErr (Event × Nat) × St :=
  interp env fuel (.objId url visited) st

/-- get_event_from_note (inbox.rs lines 582-814). -/
def getEventFromNote (env : Env) (fuel : Nat) (note : Note) (actor : Actor)
    (visited : List String) (st : St) : Except ConvErr Event × St :=
  match interp env fuel (.noteConv note actor visited) st with
  | (.ok ev, st') => (.ok ev.1, st')
  | (.error e, st') => (.error e, st')

/-! ## The activity dispatch of http_post_inbox (inbox.rs lines 68-394) -/

/-- The inbound activity variants the handler dispatches on (activity module,
outside src/; the shape is taken from the destructuring in the handler). -/
inductive Activity where
  | follow (object : String)
  | undoFollow (object : String)
  | undoLike (object : String) (likeId : String) (undoId : String)
  | undoOther
  | create (object : Note)
  | like (object : String) (content : Option String) (id : String)
      (tag : List NoteTag)
  | announce (id : String) (object : String) (published : Nat)
      (toAddr : List String) (cc : List String)
  | deleteNote (objectId : String)
  | updateActor
  | deleteUser
  | other
  deriving DecidableEq

/-- The forward-map update of the Follow handler (inbox.rs lines 73-86).
It runs before the HTTP response, holding only the nostr_account_to_followers
lock; the reverse map is not touched here. -/
def followForwardStep (st : St) (followed : Nat) (actorId : String) : St :=
  let cur := (lookupL st.followersOf followed).getD []
  { st with followersOf := setEntry st.followersOf followed (insertS cur actorId) }

/-- The reverse-map update and contact-list publication of the Follow handler
(inbox.rs lines 107-125). It runs later, inside the spawned task, holding only
the nostr_account_to_followers_rev lock. The contact list is republished on every
follow: with one p tag per followed pubkey while the resulting set is below
CONTACT_LIST_LEN_LIMIT, and with an empty tag list otherwise. -/
def followReverseStep (env : Env) (st : St) (followed : Nat) (actorId : String)
    (nsec : Nat) : St :=
  let l := insertS ((lookupL st.followingBy actorId).getD []) followed
  let tags := if l.length < contactListLenLimit then l.map Tag.publicKey else []
  let ev := buildEvent env kindContactList ("") tags env.now nsec
  { st with followingBy := setEntry st.followingBy actorId l,
            published := st.published ++ [ev] }

/-- The forward-map update of the Undo(Follow) handler (inbox.rs lines 137-153).
Note the source computes is_empty from the set as it was BEFORE the removal is
written back (line 145), so removing the last follower keeps an empty entry; the
entry is only deleted when it was already empty on entry. -/
def undoFollowForwardStep (st : St) (object : Nat) (actorId : String) : St :=
  match lookupL st.followersOf object with
  | none => st
  | some s =>
    let sNew := eraseS s actorId
    if s.isEmpty then { st with followersOf := removeEntry st.followersOf object }
    else { st with followersOf := setEntry st.followersOf object sNew }

/-- The reverse-map update of the Undo(Follow) handler (inbox.rs lines 154-176).
Unlike Follow, the contact list is republished only when the resulting set is
below CONTACT_LIST_LEN_LIMIT; at or above the cap nothing is published. -/
def undoFollowReverseStep (env : Env) (st : St) (object : Nat) (actorId : String)
    (nsec : Nat) : St :=
  let l := eraseS ((lookupL st.followingBy actorId).getD []) object
  let pub :=
    if l.length < contactListLenLimit
    then [buildEvent env kindContactList ("") (l.map Tag.publicKey) env.now nsec]
    else []
  { st with followingBy := setEntry st.followingBy actorId l,
            published := st.published ++ pub }

/-- Modelled from the spec: state.delete_event (nostr.rs, which is not under
src/; inbox.rs line 380 only spawns it with the bound event id and the actor
key). Spec 4.5 Delete(Note): "Look up the bound NET-N event id; publish a
deletion referencing it and notify all relays the original was sent to; remove
the binding", and spec 5 stamps deletes "using the current wall clock at send
time". The relay bookkeeping is outside the state modeled here; the binding
removal is keyed by the event id the function receives. -/
def deleteEvent (env : Env) (e : Nat) (nsec : Nat) (st : St) : St :=
  let ev := buildEvent env kindEventDeletion ("") [Tag.event e none none]
    env.now nsec
  { st with
    db := { st.db with
            apToEvent := st.db.apToEvent.filter (fun p => decide (p.2 ≠ e)) },
    published := st.published ++ [ev] }

/-- The per-activity dispatch of http_post_inbox, entered after body parsing,
actor resolution and HTTP-signature verification (which are external). actorId
is the envelope actor url, actor the resolved document. Effects of spawned tasks
are applied to the returned state; outbound ActivityPub deliveries (the Accept
post, delete_event, update_actor_metadata — all outside src/) and the file
snapshot are not modeled. -/
def handleActivity (env : Env) (fuel : Nat) (actorId : String) (actor : Actor)
    (act : Activity) (st : St) : Except HErr Unit × St :=
  match act with
  | .follow object =>
    match getNpubFromActorId env object with
    | none => (.error (.badRequest (some ("object not found"))), st)
    | some followed =>
      let st1 := followForwardStep st followed actorId
      (.ok (), followReverseStep env st1 followed actorId actor.nsec)
  | .undoFollow object =>
    match getNpubFromActorId env object with
    | none => (.error (.badRequest (some ("object not found"))), st)
    | some followed =>
      let st1 := undoFollowForwardStep st followed actorId
      (.ok (), undoFollowReverseStep env st1 followed actorId actor.nsec)
  | .undoLike object likeId undoId =>
    match getNoteFromThisServer env object with
    | none => (.error (.badRequest (some ("object not found"))), st)
    | some note =>
      match InternalApId.get likeId actorId with
      | .error e => (.error e, st)
      | .ok apId =>
        match env.findReaction actor.npub note.id
            (env.revDns ++ ((".activitypub:") ++ likeId)) with
        | some re =>
          let ev := buildEvent env kindEventDeletion ("")
            (eventTag env undoId [Tag.event re.id none none]) env.now actor.nsec
          (.ok (), sendEvent ev apId st)
        | none => (.ok (), st)
  | .undoOther => (.ok (), st)
  | .create object =>
    match object.url.proxiedFrom with
    | some npub =>
      (.error (.badRequest (some (npub ++ (" is already a nostr event")))), st)
    | none =>
      match InternalApId.get object.id actor.id with
      | .error e => (.error e, st)
      | .ok apId =>
        match dbGetEventId st.db apId with
        | some _ => (.ok (), st)
        | none => (.ok (), (getEventFromNote env fuel object actor [] st).2)
  | .like object content likeId tag =>
    if dbStopped st.db actorId then (.ok (), st)
    else
      match InternalApId.get likeId actorId with
      | .error e => (.error e, st)
      | .ok apId =>
        match dbGetEventId st.db apId with
        | some _ => (.ok (), st)
        | none =>
          match getNoteFromThisServer env object with
          | none => (.error (.badRequest (some ("object not found"))), st)
          | some note =>
            let base : List Tag := [Tag.event note.id none none,
              Tag.publicKey note.pubkey]
            let emojiTag :=
              match content with
              | some c => tag.findSome? (fun t =>
                  match t with
                  | NoteTag.emoji nm icon =>
                    if nm = c then some (Tag.emoji (trimColons c) icon) else none
                  | _ => none)
              | none => none
            let contentConverted := content.getD ("+")
            let ev := buildEvent env kindReaction contentConverted
              (eventTag env likeId (base ++ emojiTag.toList)) env.now actor.nsec
            (.ok (), sendEvent ev apId st)
  | .announce annId object published toAddr cc =>
    if dbStopped st.db actorId then (.ok (), st)
    else if isPrivateNote toAddr cc then (.ok (), st)
    else
      match InternalApId.get annId actorId with
      | .error e => (.error e, st)
      | .ok apId =>
        match dbGetEventId st.db apId with
        | some _ => (.ok (), st)
        | none =>
          match getEventFromObjectId env fuel object [] st with
          | (.ok e, st') =>
            let ev := buildEvent env kindRepost ("")
              (eventTag env annId [Tag.event e.1.id (some (env.relayUrl e.2)) none,
                Tag.publicKey e.1.pubkey])
              published actor.nsec
            (.ok (), sendEvent ev apId st')
          | (.error _, st') => (.ok (), st')
  | .deleteNote objectId =>
    match InternalApId.get objectId actorId with
    | .error e => (.error e, st)
    | .ok apId =>
      match dbGetEventId st.db apId with
      | some e => (.ok (), deleteEvent env e actor.nsec st)
      | none => (.ok (), st)
  | .updateActor => (.ok (), st)
  | .deleteUser => (.ok (), st)
  | .other => (.ok (), st)

/-- The startup secret-key assertion of main (main.rs line 95):
the process starts only when SECRET_KEY.len() > 10 (len counts utf-8 bytes). -/
def secretKeyAccepted (s : String) : Bool :=
  decide (10 < s.utf8ByteSize)

/-- The follow maps are mirror images: membership in the forward map matches
membership in the reverse map. -/
def mirrorInv (st : St) : Prop :=
  ∀ (p : Nat) (a : String),
    a ∈ (lookupL st.followersOf p).getD [] ↔ p ∈ (lookupL st.followingBy a).getD []

/-! ## Concrete fixtures for the boundary scenarios -/

/-- A degenerate id-hash oracle for concrete scenarios. -/
def mkId0 : Nat → Nat → Nat → String → List Tag → Nat := fun _ _ _ _ _ => 0

/-- A concrete environment: all lookups fail, codecs are numeric strings. -/
def env0 : Env where
  notePre := "https://h/notes/"
  userPre := "https://h/users/"
  domain := "h"
  revDns := "h"
  now := 1000
  relayUrl := fun _ => "wss://r"
  getNote := fun _ => none
  getEventById := fun _ => none
  findReaction := fun _ _ _ => none
  fetchNote := fun _ => none
  getActor := fun _ => none
  decodeNote := fun _ => none
  decodePub := strToNatQ
  encodeNote := fun _ => "e"
  encodePub := fun _ => "p"
  pubOfSec := fun n => n
  mkId := mkId0
  htmlToText := fun s => s
  hashtagReplace := fun s => s
  stripHeadMentions := fun _ => none
  mentionMatches := fun _ => []

/-- Empty process state. -/
def st0 : St where
  db := { apToEvent := [], stoppedAp := [] }
  followersOf := []
  followingBy := []
  published := []

/-- A resolved actor on host h. -/
def actor0 : Actor where
  id := "https://h/a"
  npub := 7
  nsec := 7
  inbox := none

/-- The url of the k-th note of the reply-chain fixture: k repetitions of u. -/
def chainUrl (k : Nat) : String :=
  String.mk (List.replicate k 'u')

/-- The k-th note of a linear reply chain of n notes: note k is fetched at url
(chainUrl k) and replies to note k+1; the last note is a root. -/
def chainNote (n k : Nat) : Note where
  id := "https://h/" ++ String.mk (List.replicate k 'x')
  attributedTo := "https://h/a"
  content := ""
  source := none
  summary := none
  sensitive := none
  inReplyTo := if k < n then some (chainUrl (k + 1)) else none
  quoteUrl := none
  misskeyQuote := none
  attachment := []
  tag := []
  published := 5
  toAddr := ["Public"]
  cc := []
  url := ⟨none, none⟩

/-- Environment serving the linear reply chain of n notes. -/
def chainEnv (n : Nat) : Env :=
  { env0 with
    fetchNote := fun u =>
      match u.data with
      | [] => none
      | l =>
        if l.all (fun c => c = 'u')
        then (if 1 ≤ l.length ∧ l.length ≤ n then some (chainNote n l.length)
              else none)
        else none,
    getActor := fun a =>
      if a = "https://h/a" then some (.actor actor0) else none }

/-- A plain public note on host h whose url carries proxiedFrom (it claims to
originate from a nostr event). -/
def note1 : Note where
  id := "https://h/1"
  attributedTo := "https://h/a"
  content := ""
  source := none
  summary := none
  sensitive := none
  inReplyTo := none
  quoteUrl := none
  misskeyQuote := none
  attachment := []
  tag := []
  published := 5
  toAddr := ["Public"]
  cc := []
  url := ⟨none, some ("npub1x")⟩

/-- Like note1 but without proxiedFrom and attributed to host x. -/
def noteHostMismatch : Note :=
  { note1 with id := "https://x/1", url := ⟨none, none⟩ }

/-- A private reply (no Public designator in to/cc) whose parent lives at an
unfetchable url. -/
def noteC8 : Note :=
  { note1 with
    id := "https://h/p1", url := ⟨none, none⟩,
    inReplyTo := some ("u"), toAddr := [], cc := [] }

/-- A private reply whose parent url is in the note-id namespace of envC7 and
thus resolves. -/
def noteC8r : Note :=
  { noteC8 with inReplyTo := some ("https://h/notes/note1good") }

/-- State whose binding store already binds note1's id. -/
def stBound : St where
  db := { apToEvent := [("https://h/1", 0)], stoppedAp := [] }
  followersOf := []
  followingBy := []
  published := []

/-- State in which pubkey 7 is followed exactly by actor0. -/
def stC4 : St :=
  { st0 with followersOf := [(7, ["https://h/a"])] }

/-- State in which actor0 follows 501 pubkeys. -/
def stC5 : St :=
  { st0 with followingBy := [("https://h/a", List.range 501)] }

/-- A target nostr event used by the Like/Announce fixtures. -/
def evT : Event where
  id := 42
  pubkey := 9
  createdAt := 1
  kind := 1
  content := ""
  tags := []

/-- Environment in which the bech32 string note1good denotes event 42 = evT and
the wall clock reads 1000. -/
def envC7 : Env :=
  { env0 with
    now := 1000,
    decodeNote := fun s => if s = "note1good" then some 42 else none,
    getNote := fun eid => if eid = 42 then some (evT, 0) else none }

/-- Like envC7 but with the note-id prefix on host h.example, the same length as
the foreign prefix https://e.example/notes/. -/
def envC9 : Env :=
  { envC7 with notePre := "https://h.example/notes/" }

/-- Fuel that always suffices for a call of the translation recursion: each
nesting level pushes one url onto visited, and the visited guard cuts the
recursion off above length 100. -/
def callCost : Call → Nat
  | .objId _ v => 3 * (102 - v.length) + 3
  | .noteConv _ _ v => 3 * (102 - v.length) + 5
  | .afterParent _ _ v _ => 3 * (102 - v.length) + 4

/-! ## Supporting lemmas -/

theorem lookupL_setEntry {α β : Type} [DecidableEq α] (m : List (α × β))
    (k k' : α) (v : β) :
    lookupL (setEntry m k v) k' = if k = k' then some v else lookupL m k' := by
  induction m with
  | nil => simp [setEntry, lookupL]
  | cons hd t ih =>
    obtain ⟨a, b⟩ := hd
    by_cases hak : a = k
    · subst hak
      by_cases hkk : a = k' <;> simp [setEntry, lookupL, hkk]
    · by_cases hak' : a = k'
      · subst hak'
        have hka : ¬(k = a) := fun hh => hak hh.symm
        simp [setEntry, lookupL, hak, hka]
      · simp [setEntry, lookupL, hak, hak', ih]

theorem lookupL_removeEntry {α β : Type} [DecidableEq α] (m : List (α × β))
    (k k' : α) :
    lookupL (removeEntry m k) k' = if k = k' then none else lookupL m k' := by
  induction m with
  | nil => simp [removeEntry, lookupL]
  | cons hd t ih =>
    obtain ⟨a, b⟩ := hd
    by_cases hak : a = k
    · subst hak
      by_cases hkk : a = k' <;>
        simp_all [removeEntry, lookupL, List.filter]
    · by_cases hak' : a = k'
      · subst hak'
        have hka : ¬(k = a) := fun hh => hak hh.symm
        simp_all [removeEntry, lookupL, List.filter]
      · simp_all [removeEntry, lookupL, List.filter]

theorem mem_insertS {α : Type} [DecidableEq α] (s : List α) (x y : α) :
    x ∈ insertS s y ↔ x ∈ s ∨ x = y := by
  unfold insertS
  by_cases h : y ∈ s
  · simp only [h, if_true]
    constructor
    · exact Or.inl
    · rintro (hx | rfl) <;> assumption
  · simp [h]

theorem mem_eraseS {α : Type} [DecidableEq α] (s : List α) (x y : α) :
    x ∈ eraseS s y ↔ x ∈ s ∧ x ≠ y := by
  simp [eraseS, List.mem_filter]

theorem finishNote_ne_fuel (env : Env) (note : Note) (actor : Actor)
    (tags : List Tag) (content : String) (st : St) :
    (finishNote env note actor tags content st).1 ≠ .error .outOfFuel := by
  unfold finishNote
  repeat' split <;> simp_all

theorem liftEv_ne_fuel (p : Except ConvErr Event × St)
    (h : p.1 ≠ .error .outOfFuel) : (liftEv p).1 ≠ .error .outOfFuel := by
  obtain ⟨r, st⟩ := p
  cases r <;> simp_all [liftEv]

/-- With fuel at least callCost, the interpreter never reports the fuel marker:
the Rust recursion, which has no fuel, terminates on every input. -/
theorem interp_sufficient_fuel (fuel : Nat) :
    ∀ (c : Call) (env : Env) (st : St), callCost c ≤ fuel →
      (interp env fuel c st).1 ≠ .error .outOfFuel := by
  induction fuel with
  | zero =>
    intro c env st h
    exfalso
    cases c <;> simp [callCost] at h
  | succ n ih =>
    intro c env st h
    cases c with
    | objId url visited =>
      simp only [interp]
      repeat' split
      all_goals
        first
        | (apply ih
           simp only [callCost, List.length_append, List.length_cons,
             List.length_nil] at h ⊢
           omega)
        | simp
    | noteConv note actor visited =>
      simp only [interp]
      split
      case _ r hr =>
        split
        case _ e st' heq =>
          have hne := ih (.objId r visited) env st
            (by simp only [callCost] at h ⊢; omega)
          rw [heq] at hne
          simpa using hne
        case _ pe st' heq =>
          apply ih
          simp only [callCost] at h ⊢
          omega
      case _ hr =>
        apply ih
        simp only [callCost] at h ⊢
        omega
    | afterParent note actor visited tags1 =>
      simp only [interp]
      repeat' split
      all_goals exact liftEv_ne_fuel _ (finishNote_ne_fuel _ _ _ _ _ _)

theorem liftEv_ok (p : Except ConvErr Event × St) (ev : Event × Nat) (st' : St)
    (h : liftEv p = (.ok ev, st')) : p = (.ok ev.1, st') ∧ ev.2 = 0 := by
  obtain ⟨r, st⟩ := p
  cases r with
  | ok a =>
    simp only [liftEv, Prod.mk.injEq, Except.ok.injEq] at h
    obtain ⟨h1, h2⟩ := h
    subst h1
    subst h2
    simp
  | error e => simp [liftEv] at h

/-- Successful note finalization: the event's created_at is the note's published
timestamp, it is a text note under the actor's key, it is published, and the
privacy gate was passed. -/
theorem finishNote_ok (env : Env) (note : Note) (actor : Actor) (tags : List Tag)
    (content : String) (st : St) (ev : Event) (st' : St)
    (h : finishNote env note actor tags content st = (.ok ev, st')) :
    ev.createdAt = note.published ∧ ev.kind = kindTextNote ∧
    ev.pubkey = env.pubOfSec actor.nsec ∧
    st'.published = st.published ++ [ev] ∧
    isPrivateNote note.toAddr note.cc = false := by
  unfold finishNote at h
  repeat' split at h
  all_goals
    first
    | (simp_all [sendEvent, buildEvent]; done)
    | (simp only [Prod.mk.injEq, Except.ok.injEq] at h
       obtain ⟨h1, h2⟩ := h
       subst h1
       subst h2
       simp_all [sendEvent, buildEvent])

/-- A private note never survives finishNote. -/
theorem finishNote_private (env : Env) (note : Note) (actor : Actor)
    (tags : List Tag) (content : String) (st : St)
    (h : isPrivateNote note.toAddr note.cc = true) :
    finishNote env note actor tags content st = (.error .isPrivate, st) := by
  unfold finishNote
  simp [h]

theorem interp_afterParent_ok (env : Env) (n : Nat) (note : Note) (actor : Actor)
    (visited : List String) (tags1 : List Tag) (st : St) (ev : Event × Nat)
    (st' : St)
    (h : interp env n (.afterParent note actor visited tags1) st = (.ok ev, st')) :
    ev.1.createdAt = note.published ∧ ev.1.kind = kindTextNote ∧
    ev.1.pubkey = env.pubOfSec actor.nsec ∧
    isPrivateNote note.toAddr note.cc = false := by
  match n with
  | 0 => simp [interp] at h
  | n + 1 =>
    simp only [interp] at h
    split at h
    · split at h
      · obtain ⟨hfin, _⟩ := liftEv_ok _ _ _ h
        obtain ⟨h1, h2, h3, _, h5⟩ := finishNote_ok _ _ _ _ _ _ _ _ hfin
        exact ⟨h1, h2, h3, h5⟩
      · obtain ⟨hfin, _⟩ := liftEv_ok _ _ _ h
        obtain ⟨h1, h2, h3, _, h5⟩ := finishNote_ok _ _ _ _ _ _ _ _ hfin
        exact ⟨h1, h2, h3, h5⟩
    · obtain ⟨hfin, _⟩ := liftEv_ok _ _ _ h
      obtain ⟨h1, h2, h3, _, h5⟩ := finishNote_ok _ _ _ _ _ _ _ _ hfin
      exact ⟨h1, h2, h3, h5⟩

/-- With any usable fuel, a private note reaches the privacy gate and fails with
IsPrivate, unless an earlier propagating step failed first; afterParent itself
has no propagating step, so here the gate always fires. -/
theorem interp_afterParent_private (env : Env) (n : Nat) (note : Note)
    (actor : Actor) (visited : List String) (tags1 : List Tag) (st : St)
    (h : isPrivateNote note.toAddr note.cc = true) :
    ∃ st', interp env (n + 1) (.afterParent note actor visited tags1) st
      = (.error .isPrivate, st') := by
  simp only [interp]
  split
  · split
    · rw [finishNote_private _ _ _ _ _ _ h]
      exact ⟨_, rfl⟩
    · rw [finishNote_private _ _ _ _ _ _ h]
      exact ⟨_, rfl⟩
  · rw [finishNote_private _ _ _ _ _ _ h]
    exact ⟨_, rfl⟩

/-- Successful note translation: created_at equals the note's published time. -/
theorem interp_noteConv_ok (env : Env) (n : Nat) (note : Note) (actor : Actor)
    (visited : List String) (st : St) (ev : Event × Nat) (st' : St)
    (h : interp env n (.noteConv note actor visited) st = (.ok ev, st')) :
    ev.1.createdAt = note.published ∧ ev.1.kind = kindTextNote ∧
    ev.1.pubkey = env.pubOfSec actor.nsec ∧
    isPrivateNote note.toAddr note.cc = false := by
  match n with
  | 0 => simp [interp] at h
  | n + 1 =>
    simp only [interp] at h
    split at h
    · split at h
      · simp_all
      · exact interp_afterParent_ok _ _ _ _ _ _ _ _ _ h
    · exact interp_afterParent_ok _ _ _ _ _ _ _ _ _ h

/-- A private note is never translated into its own published event: the
translation always errors. -/
theorem interp_noteConv_private_not_ok (env : Env) (n : Nat) (note : Note)
    (actor : Actor) (visited : List String) (st : St)
    (h : isPrivateNote note.toAddr note.cc = true) :
    exOk (interp env n (.noteConv note actor visited) st).1 = false := by
  rcases hr : interp env n (.noteConv note actor visited) st with ⟨r, st'⟩
  cases r with
  | ok ev =>
    obtain ⟨_, _, _, hp⟩ := interp_noteConv_ok _ _ _ _ _ _ _ _ hr
    rw [h] at hp
    cases hp
  | error e => simp [exOk]

/-- A private non-reply note fails precisely with IsPrivate (reply resolution is
the only step of get_event_from_note whose error propagates ahead of the
privacy gate). -/
theorem interp_noteConv_private_no_reply (env : Env) (n : Nat) (note : Note)
    (actor : Actor) (visited : List String) (st : St)
    (h : isPrivateNote note.toAddr note.cc = true)
    (hr : note.inReplyTo = none) :
    ∃ st', interp env (n + 2) (.noteConv note actor visited) st
      = (.error .isPrivate, st') := by
  have heq : interp env (n + 2) (.noteConv note actor visited) st
      = interp env (n + 1) (.afterParent note actor visited (cwTags note)) st := by
    simp only [interp, hr]
  rw [heq]
  exact interp_afterParent_private _ _ _ _ _ _ _ h

/-- A private reply whose parent resolution succeeds also reaches the privacy
gate and fails with IsPrivate. -/
theorem interp_noteConv_private_reply_ok (env : Env) (n : Nat) (note : Note)
    (actor : Actor) (visited : List String) (st : St) (r : String)
    (pe : Event × Nat) (st' : St)
    (h : isPrivateNote note.toAddr note.cc = true)
    (hr : note.inReplyTo = some r)
    (hp : interp env (n + 1) (.objId r visited) st = (.ok pe, st')) :
    ∃ st'', interp env (n + 2) (.noteConv note actor visited) st
      = (.error .isPrivate, st'') := by
  have heq : interp env (n + 2) (.noteConv note actor visited) st
      = interp env (n + 1)
          (.afterParent note actor visited (tagsWithParent (cwTags note) pe.1))
          st' := by
    rw [interp.eq_def]
    simp only [hr, hp]
  rw [heq]
  exact interp_afterParent_private _ _ _ _ _ _ _ h

/-- The error of a failed parent resolution propagates unchanged out of the
note translation. -/
theorem interp_noteConv_reply_err (env : Env) (n : Nat) (note : Note)
    (actor : Actor) (visited : List String) (st : St) (r : String)
    (e : ConvErr) (st' : St)
    (hr : note.inReplyTo = some r)
    (hp : interp env (n + 1) (.objId r visited) st = (.error e, st')) :
    interp env (n + 2) (.noteConv note actor visited) st = (.error e, st') := by
  rw [interp.eq_def]
  simp only [hr, hp]

/-- The cycle guard (inbox.rs lines 490-492) for urls outside the note-id
namespace. -/
theorem interp_objId_cyclic (env : Env) (n : Nat) (url : String)
    (visited : List String) (st : St)
    (hstrip : stripPre url env.notePre = none) (hmem : url ∈ visited) :
    interp env (n + 1) (.objId url visited) st = (.error .cyclicRefernce, st) := by
  simp [interp, hstrip, hmem]

/-- The depth guard (inbox.rs lines 493-495). -/
theorem interp_objId_deep (env : Env) (n : Nat) (url : String)
    (visited : List String) (st : St)
    (hstrip : stripPre url env.notePre = none) (hmem : url ∉ visited)
    (hlen : visited.length > 100) :
    interp env (n + 1) (.objId url visited) st = (.error .tooLongThread, st) := by
  simp [interp, hstrip, hmem, hlen]

/-- A successful InternalApId::get returns the raw id. -/
theorem internalApId_get_ok (a b : String)
    (h : exOk (InternalApId.get a b) = true) : InternalApId.get a b = .ok ⟨a⟩ := by
  unfold InternalApId.get at h ⊢
  cases hb : parseHost b with
  | none => rw [hb] at h; simp [exOk] at h
  | some host =>
    by_cases ha : parseHost a = some host
    · simp [ha]
    · rw [hb] at h; simp [ha, exOk] at h

/-- InternalApId::get succeeds exactly when both ids expose the same host. -/
theorem internalApId_get_iff (a b : String) :
    exOk (InternalApId.get a b) = true ↔
      ∃ h, parseHost a = some h ∧ parseHost b = some h := by
  unfold InternalApId.get
  cases hb : parseHost b with
  | none => simp [exOk]
  | some host =>
    by_cases ha : parseHost a = some host
    · simp [ha, exOk]
    · simp [ha, exOk]

/-! ## Claim theorems -/

/-- C1 (counterexample): a Create whose internal AP id is already bound in the
id-binding store but whose object url carries proxiedFrom is answered with
BadRequest — not success — because the proxiedFrom rejection (inbox.rs 248-252)
runs before the dedup lookup (line 254). No event is published either way. -/
theorem c1_counterexample_proxied_create :
    dbGetEventId stBound.db ⟨("https://h/1")⟩ = some 0 ∧
    handleActivity env0 1 ("https://h/a") actor0 (.create note1) stBound
      = (.error (.badRequest (some ("npub1x is already a nostr event"))), stBound) := by
  constructor <;> decide

/-- C1 (amended): an inbound Create, Like or Announce whose internal AP id is
already bound is accepted with success and changes nothing — in particular no
NET-N event is published again for that id — except that a Create carrying
url.proxiedFrom is rejected with BadRequest before the dedup lookup (still
publishing nothing). -/
theorem c1_dedup_no_republish :
    (∀ (env : Env) (fuel : Nat) (actorId : String) (actor : Actor) (n : Note)
       (st : St) (eid : Nat),
       n.url.proxiedFrom = none →
       exOk (InternalApId.get n.id actor.id) = true →
       dbGetEventId st.db ⟨n.id⟩ = some eid →
       handleActivity env fuel actorId actor (.create n) st = (.ok (), st)) ∧
    (∀ (env : Env) (fuel : Nat) (actorId : String) (actor : Actor)
       (object : String) (content : Option String) (likeId : String)
       (tag : List NoteTag) (st : St) (eid : Nat),
       exOk (InternalApId.get likeId actorId) = true →
       dbGetEventId st.db ⟨likeId⟩ = some eid →
       handleActivity env fuel actorId actor (.like object content likeId tag) st
         = (.ok (), st)) ∧
    (∀ (env : Env) (fuel : Nat) (actorId : String) (actor : Actor)
       (annId object : String) (published : Nat) (toAddr cc : List String)
       (st : St) (eid : Nat),
       exOk (InternalApId.get annId actorId) = true →
       dbGetEventId st.db ⟨annId⟩ = some eid →
       handleActivity env fuel actorId actor
         (.announce annId object published toAddr cc) st = (.ok (), st)) ∧
    (∀ (env : Env) (fuel : Nat) (actorId : String) (actor : Actor) (n : Note)
       (npub : String) (st : St),
       n.url.proxiedFrom = some npub →
       handleActivity env fuel actorId actor (.create n) st
         = (.error (.badRequest (some (npub ++ (" is already a nostr event")))),
            st)) := by
  refine ⟨?_, ?_, ?_, ?_⟩
  · intro env fuel actorId actor n st eid h1 h2 h3
    have hok := internalApId_get_ok _ _ h2
    simp [handleActivity, h1, hok, h3]
  · intro env fuel actorId actor object content likeId tag st eid h2 h3
    have hok := internalApId_get_ok _ _ h2
    by_cases hs : dbStopped st.db actorId
    · simp [handleActivity, hs]
    · simp [handleActivity, hs, hok, h3]
  · intro env fuel actorId actor annId object published toAddr cc st eid h2 h3
    have hok := internalApId_get_ok _ _ h2
    by_cases hs : dbStopped st.db actorId
    · simp [handleActivity, hs]
    · by_cases hp : isPrivateNote toAddr cc
      · simp [handleActivity, hs, hp]
      · simp [handleActivity, hs, hp, hok, h3]
  · intro env fuel actorId actor n npub st h1
    simp [handleActivity, h1]

/-- C1 (witness): a duplicate Like is accepted unchanged. -/
theorem c1_dedup_no_republish_witness :
    handleActivity env0 1 ("https://h/a") actor0
      (.like ("x") none ("https://h/1") []) stBound = (.ok (), stBound) :=
  c1_dedup_no_republish.2.1 env0 1 ("https://h/a") actor0 ("x") none
    ("https://h/1") [] stBound 0 (by decide) (by decide)

/-- C2: InternalApId::get(ap_id, actor_id) returns Ok exactly when both ids
expose the same host; a Create whose object.id host differs from the resolved
actor's host is answered with a BadRequest error and the state — in particular
the id-binding store — is unchanged, so no binding is stored. -/
theorem c2_internal_ap_id_host_check :
    (∀ apId actorId : String,
       exOk (InternalApId.get apId actorId) = true ↔
         ∃ h, parseHost apId = some h ∧ parseHost actorId = some h) ∧
    (∀ (env : Env) (fuel : Nat) (actorId : String) (actor : Actor) (n : Note)
       (st : St),
       parseHost n.id ≠ parseHost actor.id →
       ∃ msg, handleActivity env fuel actorId actor (.create n) st
         = (.error (.badRequest msg), st)) := by
  constructor
  · exact internalApId_get_iff
  · intro env fuel actorId actor n st hne
    cases hpf : n.url.proxiedFrom with
    | some npub =>
      exact ⟨some (npub ++ (" is already a nostr event")),
        by simp [handleActivity, hpf]⟩
    | none =>
      cases hb : parseHost actor.id with
      | none =>
        exact ⟨some ("actor id is not a url"),
          by simp [handleActivity, hpf, InternalApId.get, hb]⟩
      | some host =>
        have ha : ¬(parseHost n.id = some host) := by
          rw [hb] at hne
          exact fun hh => hne (by rw [hh])
        exact ⟨some (("activity id is " ++ n.id) ++
            ((" but the author has a different host name ") ++ host)),
          by simp [handleActivity, hpf, InternalApId.get, hb, ha]⟩

/-- C2 (witness): a Create from actor0 (host h) whose object.id lives on host x
is rejected and stores nothing. -/
theorem c2_internal_ap_id_host_check_witness :
    ∃ msg, handleActivity env0 1 ("https://h/a") actor0
      (.create noteHostMismatch) st0 = (.error (.badRequest msg), st0) :=
  c2_internal_ap_id_host_check.2 env0 1 ("https://h/a") actor0 noteHostMismatch
    st0 (by decide)

/-- C3 (counterexample): the Follow handler updates the forward map before the
HTTP response (inbox.rs lines 73-86, under the nostr_account_to_followers lock)
and the reverse map only later inside the spawned task (lines 107-125, under the
separate nostr_account_to_followers_rev lock). Between the two updates — an
observation point — A is a follower of P in the forward map while the reverse
map still knows nothing: the maps are not mirror images, and there is no single
critical section. -/
theorem c3_counterexample_intermediate_state :
    (("https://h/a" : String)
      ∈ (lookupL (followForwardStep st0 7 ("https://h/a")).followersOf 7).getD [])
    ∧ ¬((7 : Nat)
      ∈ (lookupL (followForwardStep st0 7 ("https://h/a")).followingBy
          ("https://h/a")).getD []) := by
  constructor <;> decide

/-- C3 (amended): the two maps are guarded by two separate locks and updated at
different times, so mirror-membership can be observed broken between the two
steps of one mutation; it is restored once both steps of a Follow or an
Undo(Follow) have run. -/
theorem c3_mirror_restored_after_completion :
    ∀ (env : Env) (st : St) (p : Nat) (a : String) (nsec : Nat),
      mirrorInv st →
      mirrorInv (followReverseStep env (followForwardStep st p a) p a nsec) ∧
      mirrorInv (undoFollowReverseStep env (undoFollowForwardStep st p a) p a
        nsec) := by
  intro env st p a nsec hm
  constructor
  · intro p' a'
    simp only [followReverseStep, followForwardStep, lookupL_setEntry]
    by_cases hp : p = p'
    · subst hp
      by_cases ha : a = a'
      · subst ha
        simp [mem_insertS]
      · have ha' : ¬(a' = a) := fun hh => ha hh.symm
        simp [ha, ha', mem_insertS, hm p a']
    · by_cases ha : a = a'
      · subst ha
        have hp' : ¬(p' = p) := fun hh => hp hh.symm
        simp [hp, hp', mem_insertS, hm p' a]
      · simp [hp, ha, mem_insertS, hm p' a']
  · intro p' a'
    simp only [undoFollowReverseStep]
    cases hs : lookupL st.followersOf p with
    | none =>
      by_cases hp : p = p'
      · subst hp
        by_cases ha : a = a'
        · subst ha
          simp [undoFollowForwardStep, hs, lookupL_setEntry, mem_eraseS]
        · have ha' : ¬(a' = a) := fun hh => ha hh.symm
          have hy := hm p a'
          rw [hs] at hy
          simp only [Option.getD_none, List.not_mem_nil, false_iff] at hy
          simp [undoFollowForwardStep, hs, lookupL_setEntry, ha, hy]
      · by_cases ha : a = a'
        · subst ha
          have hp' : ¬(p' = p) := fun hh => hp hh.symm
          simp [undoFollowForwardStep, hs, lookupL_setEntry, mem_eraseS, hp',
            hm p' a]
        · simp [undoFollowForwardStep, hs, lookupL_setEntry, hp, ha, hm p' a']
    | some s =>
      have hx : ∀ b, b ∈ s ↔ p ∈ (lookupL st.followingBy b).getD [] := by
        intro b
        have hb := hm p b
        rw [hs] at hb
        simpa using hb
      by_cases he : s.isEmpty
      · have hnil : s = [] := by
          cases s with
          | nil => rfl
          | cons x t => simp [List.isEmpty] at he
        subst hnil
        by_cases hp : p = p'
        · subst hp
          by_cases ha : a = a'
          · subst ha
            simp [undoFollowForwardStep, hs, he, lookupL_setEntry,
              lookupL_removeEntry, mem_eraseS]
          · have ha' : ¬(a' = a) := fun hh => ha hh.symm
            have hxa := hx a'
            simp only [List.not_mem_nil, false_iff] at hxa
            simp [undoFollowForwardStep, hs, he, lookupL_setEntry,
              lookupL_removeEntry, ha, hxa]
        · by_cases ha : a = a'
          · subst ha
            have hp' : ¬(p' = p) := fun hh => hp hh.symm
            simp [undoFollowForwardStep, hs, he, lookupL_setEntry,
              lookupL_removeEntry, hp, hp', mem_eraseS, hm p' a]
          · simp [undoFollowForwardStep, hs, he, lookupL_setEntry,
              lookupL_removeEntry, hp, ha, hm p' a']
      · by_cases hp : p = p'
        · subst hp
          by_cases ha : a = a'
          · subst ha
            simp [undoFollowForwardStep, hs, he, lookupL_setEntry, mem_eraseS]
          · have ha' : ¬(a' = a) := fun hh => ha hh.symm
            simp [undoFollowForwardStep, hs, he, lookupL_setEntry, mem_eraseS,
              ha, ha', hx a']
        · by_cases ha : a = a'
          · subst ha
            have hp' : ¬(p' = p) := fun hh => hp hh.symm
            simp [undoFollowForwardStep, hs, he, lookupL_setEntry, mem_eraseS,
              hp, hp', hm p' a]
          · simp [undoFollowForwardStep, hs, he, lookupL_setEntry, hp, ha,
              hm p' a']

/-- C3 (witness): from the empty state, both completed mutations preserve the
mirror property. -/
theorem c3_mirror_restored_after_completion_witness :
    mirrorInv (followReverseStep env0 (followForwardStep st0 7 ("https://h/a"))
      7 ("https://h/a") 7) ∧
    mirrorInv (undoFollowReverseStep env0
      (undoFollowForwardStep st0 7 ("https://h/a")) 7 ("https://h/a") 7) :=
  c3_mirror_restored_after_completion env0 st0 7 ("https://h/a") 7
    (by intro p a; simp [st0, mirrorInv, lookupL])

/-- C4 (code bug): with followers_of = [7 ↦ [actor0]], an Undo(Follow) from
actor0 removes the follower but leaves the now-empty entry in the forward map,
because the source tests is_empty on the pre-removal set (inbox.rs line 145);
the claim (and spec) say the entry is deleted when the set becomes empty. -/
theorem c4_empty_follower_entry_retained :
    (handleActivity env0 1 ("https://h/a") actor0
        (.undoFollow ("https://h/users/7")) stC4).1 = .ok () ∧
    (handleActivity env0 1 ("https://h/a") actor0
        (.undoFollow ("https://h/users/7")) stC4).2.followersOf = [(7, [])] := by
  constructor <;> decide

/-- C5 (counterexample): an Undo(Follow) whose resulting following set still has
500 entries publishes NO contact-list event at all (inbox.rs lines 159-175 skip
the publication at or above the cap), while the claim requires an empty
contact-list event for every mutation. -/
theorem c5_counterexample_undo_at_cap :
    (handleActivity env0 1 ("https://h/a") actor0
        (.undoFollow ("https://h/users/500")) stC5).2.published = [] := by
  decide

/-- C5 (amended): a Follow always republishes the follower's contact list,
signed with the actor's derived key — with one p tag per followed pubkey below
the 500 cap and with an empty tag list at or above it; an Undo(Follow)
republishes only below the cap and publishes nothing at or above it. Both
handler paths reduce to these two step functions. -/
theorem c5_contact_list_publication :
    ∀ (env : Env) (st : St) (p : Nat) (a : String) (nsec : Nat),
      (∃ ev, (followReverseStep env st p a nsec).published
          = st.published ++ [ev] ∧
        ev.kind = kindContactList ∧ ev.pubkey = env.pubOfSec nsec ∧
        ev.createdAt = env.now ∧
        ev.tags = (if (insertS ((lookupL st.followingBy a).getD []) p).length
            < contactListLenLimit
          then (insertS ((lookupL st.followingBy a).getD []) p).map Tag.publicKey
          else [])) ∧
      (¬(eraseS ((lookupL st.followingBy a).getD []) p).length
          < contactListLenLimit →
        (undoFollowReverseStep env st p a nsec).published = st.published) ∧
      ((eraseS ((lookupL st.followingBy a).getD []) p).length
          < contactListLenLimit →
        ∃ ev, (undoFollowReverseStep env st p a nsec).published
            = st.published ++ [ev] ∧
          ev.kind = kindContactList ∧ ev.pubkey = env.pubOfSec nsec ∧
          ev.tags = (eraseS ((lookupL st.followingBy a).getD []) p).map
            Tag.publicKey) ∧
      (∀ (fuel : Nat) (actorId : String) (actor : Actor) (object : String)
         (followed : Nat),
         getNpubFromActorId env object = some followed →
         handleActivity env fuel actorId actor (.follow object) st
           = (.ok (), followReverseStep env
               (followForwardStep st followed actorId) followed actorId
               actor.nsec) ∧
         handleActivity env fuel actorId actor (.undoFollow object) st
           = (.ok (), undoFollowReverseStep env
               (undoFollowForwardStep st followed actorId) followed actorId
               actor.nsec)) := by
  intro env st p a nsec
  refine ⟨?_, ?_, ?_, ?_⟩
  · refine ⟨_, rfl, ?_, ?_, ?_, ?_⟩ <;> simp [followReverseStep, buildEvent]
  · intro h
    simp [undoFollowReverseStep, h]
  · intro h
    refine ⟨buildEvent env kindContactList ("")
      ((eraseS ((lookupL st.followingBy a).getD []) p).map Tag.publicKey)
      env.now nsec, ?_, ?_, ?_, ?_⟩ <;>
      simp [undoFollowReverseStep, buildEvent, h]
  · intro fuel actorId actor object followed hnp
    constructor <;> simp [handleActivity, hnp]

/-- C5 (witness): a concrete Follow goes through both step functions. -/
theorem c5_contact_list_publication_witness :
    handleActivity env0 1 ("https://h/a") actor0
      (.follow ("https://h/users/7")) st0
      = (.ok (), followReverseStep env0
          (followForwardStep st0 7 ("https://h/a")) 7 ("https://h/a")
          actor0.nsec) :=
  ((c5_contact_list_publication env0 st0 7 ("https://h/a") actor0.nsec).2.2.2 1
    ("https://h/a") actor0 ("https://h/users/7") 7 (by decide)).1

/-- C6: get_event_from_object_id terminates on every input (any fuel above the
cost bound is never consumed); a url outside the note-id namespace that is
already in visited fails with CyclicRefernce; with visited longer than 100 it
fails with TooLongThread; and on a linear reply chain the boundary sits exactly
at the cap: a chain of 101 notes — a reply chain of depth 100, counting reply
edges — fully resolves, while a chain of 102 notes (depth 101) fails with
TooLongThread. Failures of the external fetches surface as further error values;
the three listed outcomes are the ones the resolver itself decides. -/
theorem c6_object_id_resolution :
    (∀ (env : Env) (fuel : Nat) (url : String) (visited : List String) (st : St),
       3 * (102 - visited.length) + 3 ≤ fuel →
       (getEventFromObjectId env fuel url visited st).1 ≠ .error .outOfFuel) ∧
    (∀ (env : Env) (fuel : Nat) (url : String) (visited : List String) (st : St),
       stripPre url env.notePre = none → url ∈ visited →
       getEventFromObjectId env (fuel + 1) url visited st
         = (.error .cyclicRefernce, st)) ∧
    (∀ (env : Env) (fuel : Nat) (url : String) (visited : List String) (st : St),
       stripPre url env.notePre = none → url ∉ visited →
       visited.length > 100 →
       getEventFromObjectId env (fuel + 1) url visited st
         = (.error .tooLongThread, st)) ∧
    exOk (getEventFromObjectId (chainEnv 101) 400 (chainUrl 1) [] st0).1
      = true ∧
    (getEventFromObjectId (chainEnv 102) 400 (chainUrl 1) [] st0).1
      = .error .tooLongThread := by
  refine ⟨?_, ?_, ?_, ?_, ?_⟩
  · intro env fuel url visited st h
    exact interp_sufficient_fuel fuel (.objId url visited) env st
      (by simpa [callCost] using h)
  · intro env fuel url visited st h1 h2
    exact interp_objId_cyclic env fuel url visited st h1 h2
  · intro env fuel url visited st h1 h2 h3
    exact interp_objId_deep env fuel url visited st h1 h2 h3
  · decide
  · decide

/-- C6 (witness): the guards at concrete inputs. -/
theorem c6_object_id_resolution_witness :
    (getEventFromObjectId env0 400 ("x") [] st0).1 ≠ .error .outOfFuel ∧
    getEventFromObjectId env0 1 ("x") [("x")] st0
      = (.error .cyclicRefernce, st0) ∧
    getEventFromObjectId env0 1 ("y") (List.replicate 101 ("x")) st0
      = (.error .tooLongThread, st0) :=
  ⟨c6_object_id_resolution.1 env0 400 ("x") [] st0 (by decide),
   c6_object_id_resolution.2.1 env0 0 ("x") [("x")] st0 (by decide) (by decide),
   c6_object_id_resolution.2.2.1 env0 0 ("y") (List.replicate 101 ("x")) st0
     (by decide) (by decide) (by decide)⟩

/-- C7 (counterexample): the repost event built for an Announce is timestamped
with the Announce's published field (inbox.rs line 367), not with the wall
clock: with now = 1000, an Announce published at 5 yields a repost whose
created_at is 5. -/
theorem c7_counterexample_repost_created_at :
    ((handleActivity envC7 5 ("https://h/a") actor0
        (.announce ("https://h/ann") ("https://h/notes/note1good") 5
          [("Public")] []) st0).2.published.map (fun e => e.createdAt) = [5]) ∧
    envC7.now = 1000 := by
  constructor <;> decide

/-- C7 (amended): reactions and deletion events — both the Undo(Like) deletion
built in the handler and the Delete(Note) deletion emitted through
state.delete_event, the latter modelled from the spec since nostr.rs is not
under src/ — are timestamped with the current wall clock; reposts carry the
published timestamp of the Announce; and every translated text note carries the
published timestamp of the source note. -/
theorem c7_created_at_sources :
    (∀ (env : Env) (fuel : Nat) (actorId : String) (actor : Actor)
       (object : String) (content : Option String) (likeId : String)
       (tag : List NoteTag) (st : St) (note : Event),
       dbStopped st.db actorId = false →
       exOk (InternalApId.get likeId actorId) = true →
       dbGetEventId st.db ⟨likeId⟩ = none →
       getNoteFromThisServer env object = some note →
       (handleActivity env fuel actorId actor
           (.like object content likeId tag) st).2.published.map
           (fun e => (e.createdAt, e.kind))
         = st.published.map (fun e => (e.createdAt, e.kind))
           ++ [(env.now, kindReaction)]) ∧
    (∀ (env : Env) (fuel : Nat) (actorId : String) (actor : Actor)
       (object likeId undoId : String) (st : St) (note re : Event),
       getNoteFromThisServer env object = some note →
       exOk (InternalApId.get likeId actorId) = true →
       env.findReaction actor.npub note.id
         (env.revDns ++ ((".activitypub:") ++ likeId)) = some re →
       (handleActivity env fuel actorId actor
           (.undoLike object likeId undoId) st).2.published.map
           (fun e => (e.createdAt, e.kind))
         = st.published.map (fun e => (e.createdAt, e.kind))
           ++ [(env.now, kindEventDeletion)]) ∧
    (∀ (env : Env) (fuel : Nat) (actorId : String) (actor : Actor)
       (objectId : String) (st : St) (e : Nat),
       exOk (InternalApId.get objectId actorId) = true →
       dbGetEventId st.db ⟨objectId⟩ = some e →
       (handleActivity env fuel actorId actor
           (.deleteNote objectId) st).2.published.map
           (fun ev => (ev.createdAt, ev.kind))
         = st.published.map (fun ev => (ev.createdAt, ev.kind))
           ++ [(env.now, kindEventDeletion)]) ∧
    (∀ (env : Env) (fuel : Nat) (actorId : String) (actor : Actor)
       (annId object : String) (published : Nat) (toAddr cc : List String)
       (st : St) (e : Event × Nat) (st' : St),
       dbStopped st.db actorId = false →
       isPrivateNote toAddr cc = false →
       exOk (InternalApId.get annId actorId) = true →
       dbGetEventId st.db ⟨annId⟩ = none →
       getEventFromObjectId env fuel object [] st = (.ok e, st') →
       (handleActivity env fuel actorId actor
           (.announce annId object published toAddr cc) st).2.published.map
           (fun e => (e.createdAt, e.kind))
         = st'.published.map (fun e => (e.createdAt, e.kind))
           ++ [(published, kindRepost)]) ∧
    (∀ (env : Env) (fuel : Nat) (note : Note) (actor : Actor)
       (visited : List String) (st : St) (ev : Event) (st' : St),
       getEventFromNote env fuel note actor visited st = (.ok ev, st') →
       ev.createdAt = note.published ∧ ev.kind = kindTextNote) := by
  refine ⟨?_, ?_, ?_, ?_, ?_⟩
  · intro env fuel actorId actor object content likeId tag st note hs h2 h3 h4
    have hok := internalApId_get_ok _ _ h2
    simp [handleActivity, hs, hok, h3, h4, sendEvent, buildEvent]
  · intro env fuel actorId actor object likeId undoId st note re h1 h2 h3
    have hok := internalApId_get_ok _ _ h2
    simp [handleActivity, h1, hok, h3, sendEvent, buildEvent]
  · intro env fuel actorId actor objectId st e h2 h3
    have hok := internalApId_get_ok _ _ h2
    simp [handleActivity, hok, h3, deleteEvent, buildEvent]
  · intro env fuel actorId actor annId object published toAddr cc st e st' hs hp
      h2 h3 hres
    have hok := internalApId_get_ok _ _ h2
    simp [handleActivity, hs, hp, hok, h3, hres, sendEvent, buildEvent]
  · intro env fuel note actor visited st ev st' h
    unfold getEventFromNote at h
    rcases hi : interp env fuel (.noteConv note actor visited) st with ⟨r, stq⟩
    rw [hi] at h
    cases r with
    | ok evp =>
      obtain ⟨h1, h2, _, _⟩ := interp_noteConv_ok _ _ _ _ _ _ _ _ hi
      simp only [Prod.mk.injEq, Except.ok.injEq] at h
      obtain ⟨hev, _⟩ := h
      subst hev
      exact ⟨h1, h2⟩
    | error e => simp at h

/-- C7 (witness): a concrete Like produces one reaction timestamped now, and a
concrete Delete(Note) of a bound id produces one deletion timestamped now. -/
theorem c7_created_at_sources_witness :
    ((handleActivity envC7 1 ("https://h/a") actor0
        (.like ("https://h/notes/note1good") none ("https://h/like1") [])
        st0).2.published.map (fun e => (e.createdAt, e.kind))
      = [(envC7.now, kindReaction)]) ∧
    ((handleActivity envC7 1 ("https://h/a") actor0
        (.deleteNote ("https://h/1")) stBound).2.published.map
        (fun e => (e.createdAt, e.kind))
      = [(envC7.now, kindEventDeletion)]) := by
  constructor
  · have h := c7_created_at_sources.1 envC7 1 ("https://h/a") actor0
      ("https://h/notes/note1good") none ("https://h/like1") [] st0 evT
      (by decide) (by decide) (by decide) (by decide)
    simpa using h
  · have h := c7_created_at_sources.2.2.1 envC7 1 ("https://h/a") actor0
      ("https://h/1") stBound 0 (by decide) (by decide)
    simpa using h

/-- C8 (counterexample): a private reply whose parent url cannot be fetched
fails with CouldNotGetObjectFromAp — the reply-chain resolution (inbox.rs
line 607) runs before the privacy gate (line 778) and its error propagates —
so translation does not return the IsPrivate error as the claim states (nothing
is published either way). -/
theorem c8_counterexample_private_reply_error :
    isPrivateNote noteC8.toAddr noteC8.cc = true ∧
    (getEventFromNote env0 10 noteC8 actor0 [] st0).1
      = .error .couldNotGetObjectFromAp := by
  constructor <;> decide

/-- C8 (amended): a note without Public addressing is never translated into its
own NET-N event: translation always fails, and it fails precisely with the
IsPrivate error before signing — both when it is not a reply and when it is a
reply whose parent resolution succeeds — unless the parent resolution itself
fails first, in which case that resolution error propagates unchanged; a
private Announce is silently accepted with no state change at all, before any
repost event is built. -/
theorem c8_private_never_published :
    (∀ (env : Env) (fuel : Nat) (note : Note) (actor : Actor)
       (visited : List String) (st : St),
       isPrivateNote note.toAddr note.cc = true →
       exOk (getEventFromNote env fuel note actor visited st).1 = false) ∧
    (∀ (env : Env) (fuel : Nat) (note : Note) (actor : Actor)
       (visited : List String) (st : St),
       isPrivateNote note.toAddr note.cc = true → note.inReplyTo = none →
       ∃ st', getEventFromNote env (fuel + 2) note actor visited st
         = (.error .isPrivate, st')) ∧
    (∀ (env : Env) (fuel : Nat) (note : Note) (actor : Actor)
       (visited : List String) (st : St) (r : String) (pe : Event × Nat)
       (st' : St),
       isPrivateNote note.toAddr note.cc = true →
       note.inReplyTo = some r →
       getEventFromObjectId env (fuel + 1) r visited st = (.ok pe, st') →
       ∃ st'', getEventFromNote env (fuel + 2) note actor visited st
         = (.error .isPrivate, st'')) ∧
    (∀ (env : Env) (fuel : Nat) (note : Note) (actor : Actor)
       (visited : List String) (st : St) (r : String) (e : ConvErr) (st' : St),
       note.inReplyTo = some r →
       getEventFromObjectId env (fuel + 1) r visited st = (.error e, st') →
       getEventFromNote env (fuel + 2) note actor visited st
         = (.error e, st')) ∧
    (∀ (env : Env) (fuel : Nat) (actorId : String) (actor : Actor)
       (annId object : String) (published : Nat) (toAddr cc : List String)
       (st : St),
       isPrivateNote toAddr cc = true →
       handleActivity env fuel actorId actor
         (.announce annId object published toAddr cc) st = (.ok (), st)) := by
  refine ⟨?_, ?_, ?_, ?_, ?_⟩
  · intro env fuel note actor visited st h
    have hnot := interp_noteConv_private_not_ok env fuel note actor visited st h
    unfold getEventFromNote
    rcases hi : interp env fuel (.noteConv note actor visited) st with ⟨r, stq⟩
    rw [hi] at hnot
    cases r with
    | ok ev => simp [exOk] at hnot
    | error e => simp [exOk]
  · intro env fuel note actor visited st h hr
    obtain ⟨st', heq⟩ := interp_noteConv_private_no_reply env fuel note actor
      visited st h hr
    exact ⟨st', by simp [getEventFromNote, heq]⟩
  · intro env fuel note actor visited st r pe st' h hr hp
    simp only [getEventFromObjectId] at hp
    obtain ⟨st'', heq⟩ := interp_noteConv_private_reply_ok env fuel note actor
      visited st r pe st' h hr hp
    exact ⟨st'', by simp [getEventFromNote, heq]⟩
  · intro env fuel note actor visited st r e st' hr hp
    simp only [getEventFromObjectId] at hp
    have heq := interp_noteConv_reply_err env fuel note actor visited st r e
      st' hr hp
    simp [getEventFromNote, heq]
  · intro env fuel actorId actor annId object published toAddr cc st h
    by_cases hs : dbStopped st.db actorId
    · simp [handleActivity, hs]
    · simp [handleActivity, hs, h]

/-- C8 (witness): a private Announce is accepted with no state change, and a
concrete private reply whose parent resolves still fails with IsPrivate. -/
theorem c8_private_never_published_witness :
    (handleActivity env0 1 ("https://h/a") actor0
      (.announce ("a") ("b") 5 [] []) st0 = (.ok (), st0)) ∧
    (∃ st', getEventFromNote envC7 2 noteC8r actor0 [] st0
      = (.error .isPrivate, st')) :=
  ⟨c8_private_never_published.2.2.2.2 env0 1 ("https://h/a") actor0 ("a") ("b")
     5 [] [] st0 (by decide),
   c8_private_never_published.2.2.1 envC7 0 noteC8r actor0 [] st0
     ("https://h/notes/note1good") (evT, 0) st0 (by decide) (by decide)
     (by decide)⟩

/-- C9 (code bug): get_note_from_this_server slices with
url.get(NOTE_ID_PREFIX.len()..) and never verifies the prefix itself
(inbox.rs line 439), so a same-length url of a foreign server — which does not
start with the configured prefix — still resolves to a local note. -/
theorem c9_prefix_not_verified :
    stripPre ("https://e.example/notes/note1good") envC9.notePre = none ∧
    getNoteFromThisServer envC9 ("https://e.example/notes/note1good")
      = some evT := by
  constructor <;> decide

/-- C10 (counterexample): a SECRET_KEY of exactly 10 bytes fails the startup
assertion assert!(SECRET_KEY.len() > 10), while the claim says it is accepted. -/
theorem c10_counterexample_ten_byte_secret :
    ("0123456789" : String).utf8ByteSize = 10 ∧
    secretKeyAccepted ("0123456789") = false := by
  constructor <;> decide

/-- C10 (amended): startup accepts a secret exactly when it is strictly longer
than 10 bytes; an 11-byte secret is accepted, a 10-byte one refused. -/
theorem c10_secret_key_boundary :
    (∀ s : String, secretKeyAccepted s = true ↔ 11 ≤ s.utf8ByteSize) ∧
    secretKeyAccepted ("01234567890") = true := by
  constructor
  · intro s
    simp only [secretKeyAccepted, decide_eq_true_eq]
    omega
  · decide

end Momostr
